import Mathlib

/-!
Verification of the StatisticalAgreement repository against its specification.

The development shallowly embeds `src/StatisticalAgreement/agreement.py` over
the real numbers: sample pairs are lists of reals, the numpy reductions
(`np.mean`, `np.cov(bias=True)`, `np.sum`, elementwise products) are list
functions, and Python float division is real division (with Lean's `x / 0 = 0`
junk convention standing in for IEEE Inf/NaN where the source divides by zero).

The helper module `classutils.py` (Estimator, TransformFunc, ConfidentLimit,
TransformEstimator) is imported by `agreement.py` but is not part of the
sources, so those four types are modelled from the specification (sections 4.1
and 4.2).  The scipy externals `norm.ppf`, `norm.pdf`, `ncx2.cdf` are kept
abstract as parameters of the embedding.
-/

namespace StatAgree

noncomputable section

open scoped BigOperators

/-- Arithmetic mean of a list of reals, embedding `np.mean`
(empty list gives `0 / 0 = 0`). -/
def mean (l : List ℝ) : ℝ := l.sum / l.length

/-- Biased (population) covariance of two equally long lists, embedding the
entries of `np.cov(x, y, bias=True)`: the mean of centred cross-products,
normalised by the number of observations. -/
def biasedCov (x y : List ℝ) : ℝ :=
  ((x.zip y).map (fun p => (p.1 - mean x) * (p.2 - mean y))).sum / x.length

/-- Abstract interface to the scipy externals used by `agreement.py`:
`norm.ppf`, `norm.pdf` and `ncx2.cdf x df nc`. -/
structure Ext where
  normPpf : ℝ → ℝ
  normPdf : ℝ → ℝ
  ncx2cdf : ℝ → ℝ → ℝ → ℝ

/-- A concrete instantiation of the external interface, used to state closed
theorems about quantities that do not depend on the externals. -/
def extZero : Ext := ⟨fun _ => 0, fun _ => 0, fun _ _ _ => 0⟩

/-- Modelled from the spec (section 4.1): the three transform variants of the
missing `classutils.py` (`TransformFunc`). -/
inductive TransformFunc
  | Z
  | Logit
  | Log
deriving DecidableEq

/-- Modelled from the spec (section 4.2): the side of a one-sided confidence
bound (`ConfidentLimit` in the missing `classutils.py`). -/
inductive ConfidentLimit
  | Lower
  | Upper
deriving DecidableEq

/-- Modelled from the spec (section 4.1): `apply` maps a natural-scale value to
the transform scale; Z is Fisher's `atanh`, written via its closed form. -/
def TransformFunc.apply : TransformFunc → ℝ → ℝ
  | .Z, x => Real.log ((1 + x) / (1 - x)) / 2
  | .Logit, x => Real.log (x / (1 - x))
  | .Log, x => Real.log x

/-- Modelled from the spec (section 4.1): `apply_inverse` maps back from the
transform scale (tanh, logistic, exp). -/
def TransformFunc.applyInverse : TransformFunc → ℝ → ℝ
  | .Z, y => Real.tanh y
  | .Logit, y => Real.exp y / (1 + Real.exp y)
  | .Log, y => Real.exp y

/-- Modelled from the spec (section 4.1): the first derivative of `apply`,
used for delta-method variance scaling. -/
def TransformFunc.derivApply : TransformFunc → ℝ → ℝ
  | .Z, x => 1 / (1 - x ^ 2)
  | .Logit, x => 1 / (x * (1 - x))
  | .Log, x => 1 / x

/-- Modelled from the spec (section 3): the `Estimator` record of the missing
`classutils.py`: a name tag, a point estimate, and optional variance and
one-sided confidence limit (the source's `np.nan` sentinel is `none`). -/
structure Estimator where
  name : String
  estimator : ℝ
  variance : Option ℝ
  limit : Option ℝ
deriving DecidableEq

/-- Modelled from the spec (section 4.2): a raw (estimate, variance) pair
bundled with a transform (`TransformEstimator` in the missing
`classutils.py`). -/
structure TransformEstimator where
  estimate : ℝ
  variance : ℝ
  transform : TransformFunc

/-- Modelled from the spec (section 4.2): the one-sided confidence limit on
the original scale.  Steps: transform the estimate, scale the variance by the
squared derivative, take the normal quantile at `1 - alpha`, move by
`q * sqrt(v_t / n)` down (Lower) or up (Upper) on the transform scale, and map
back through the inverse transform. -/
def TransformEstimator.ci (te : TransformEstimator) (normPpf : ℝ → ℝ)
    (alpha : ℝ) (side : ConfidentLimit) (n : ℕ) : ℝ :=
  let zt := te.transform.apply te.estimate
  let vt := te.variance * (te.transform.derivApply te.estimate) ^ 2
  let q := normPpf (1 - alpha)
  let bound :=
    match side with
    | .Lower => zt - q * Real.sqrt (vt / n)
    | .Upper => zt + q * Real.sqrt (vt / n)
  te.transform.applyInverse bound

/-- Embeds the module-level constant `ALPHA = 0.05` of `agreement.py`. -/
def ALPHA : ℝ := 0.05

/-- Embeds the module-level constant `CP_DELTA = 0.5` of `agreement.py`. -/
def CP_DELTA : ℝ := 0.5

/-- Embeds the module-level constant `TDI_PI = 0.9` of `agreement.py`. -/
def TDI_PI : ℝ := 0.9

/-- Embeds the module-level function `cp_tdi_approximation(rbs, cp_allowance)`
of `agreement.py` (lines 22-33): a fixed lookup of an rbs threshold per
allowance level, returning `false` when no case matches. -/
def cp_tdi_approximation (rbs : ℝ) (cp_allowance : ℝ) : Bool :=
  if cp_allowance = 0.75 ∧ rbs ≤ 1 / 2 then true
  else if cp_allowance = 0.8 ∧ rbs ≤ 8 then true
  else if cp_allowance = 0.85 ∧ rbs ≤ 2 then true
  else if cp_allowance = 0.9 ∧ rbs ≤ 1 then true
  else if cp_allowance = 0.95 ∧ rbs ≤ 1 / 2 then true
  else false

/-- Embeds the `Agreement` class state: the two samples, the two criteria, the
sample size `_n`, and one optional slot per named result attribute (`none`
until the corresponding estimation procedure has run). -/
structure Agreement where
  _x : List ℝ
  _y : List ℝ
  _delta_criterion : ℝ
  _pi_criterion : ℝ
  _n : ℕ
  _acc : Option Estimator
  _rho : Option Estimator
  _ccc : Option Estimator
  _ccc_ustat : Option Estimator
  _z_ustat : Option Estimator
  _msd : Option Estimator
  _rbs : Option Estimator
  _cp : Option Estimator
  _tdi : Option Estimator
deriving DecidableEq

/-- Embeds `Agreement.__init__` (lines 38-43): store the samples and criteria
unchanged, set `_n = len(x)`, perform no validation; no result attribute
exists yet. -/
def mkAgreement (x y : List ℝ) (delta_criterion_for_cp pi_criterion_for_tdi : ℝ) :
    Agreement :=
  { _x := x
    _y := y
    _delta_criterion := delta_criterion_for_cp
    _pi_criterion := pi_criterion_for_tdi
    _n := x.length
    _acc := none
    _rho := none
    _ccc := none
    _ccc_ustat := none
    _z_ustat := none
    _msd := none
    _rbs := none
    _cp := none
    _tdi := none }

namespace CccApprox

/-- Embeds `mu_d = np.mean(x) - np.mean(y)` (line 48). -/
def mu_d (x y : List ℝ) : ℝ := mean x - mean y

/-- Embeds `sqr_var = np.sqrt(Sxx * Syy)` (line 51) with the biased variances
unpacked from `np.cov(x, y, bias=True)` (line 49). -/
def sqr_var (x y : List ℝ) : ℝ := Real.sqrt (biasedCov x x * biasedCov y y)

/-- Embeds `rho_hat = Sxy / sqr_var` (line 52). -/
def rho_hat (x y : List ℝ) : ℝ := biasedCov x y / sqr_var x y

/-- Embeds `nu_sq_hat = mu_d**2 / sqr_var` (line 53). -/
def nu_sq_hat (x y : List ℝ) : ℝ := mu_d x y ^ 2 / sqr_var x y

/-- Embeds `omega_hat = np.sqrt(Sxx / Syy)` (line 54). -/
def omega_hat (x y : List ℝ) : ℝ := Real.sqrt (biasedCov x x / biasedCov y y)

/-- Embeds `acc_hat = 2 * sqr_var / (Sxx + Syy + mu_d**2)` (line 56). -/
def acc_hat (x y : List ℝ) : ℝ :=
  2 * sqr_var x y / (biasedCov x x + biasedCov y y + mu_d x y ^ 2)

/-- Embeds `var_acc_hat` (lines 57-59). -/
def var_acc_hat (n : ℕ) (x y : List ℝ) : ℝ :=
  (acc_hat x y ^ 2 * nu_sq_hat x y * (omega_hat x y + 1 / omega_hat x y - 2 * rho_hat x y) +
      0.5 * acc_hat x y ^ 2 *
        (omega_hat x y ^ 2 + 1 / omega_hat x y ^ 2 + 2 * rho_hat x y ^ 2) +
      (1 + rho_hat x y ^ 2) * (acc_hat x y * nu_sq_hat x y - 1)) /
    (((n : ℝ) - 2) * (1 - acc_hat x y) ^ 2)

/-- Embeds `var_rho_hat = (1 - rho_hat**2/2)/(n-3)` (line 69). -/
def var_rho_hat (n : ℕ) (x y : List ℝ) : ℝ :=
  (1 - rho_hat x y ^ 2 / 2) / ((n : ℝ) - 3)

/-- Embeds `ccc_hat = acc_hat * rho_hat` (line 78). -/
def ccc_hat (x y : List ℝ) : ℝ := acc_hat x y * rho_hat x y

/-- Embeds `var_ccc_hat` (lines 79-81). -/
def var_ccc_hat (n : ℕ) (x y : List ℝ) : ℝ :=
  1 / ((n : ℝ) - 2) *
    ((1 - rho_hat x y ^ 2) * ccc_hat x y ^ 2 /
        ((1 - ccc_hat x y ^ 2) * rho_hat x y ^ 2) +
      2 * ccc_hat x y ^ 3 * (1 - ccc_hat x y) * nu_sq_hat x y /
        (rho_hat x y * (1 - ccc_hat x y ^ 2) ^ 2) -
      ccc_hat x y ^ 4 * nu_sq_hat x y ^ 2 /
        (2 * rho_hat x y ^ 2 * (1 - ccc_hat x y ^ 2) ^ 2))

end CccApprox

/-- Embeds `Agreement.ccc_approximation` (lines 45-90): populate the `acc`,
`rho` and `ccc` Estimators, each with a Lower confidence limit from a
`TransformEstimator` (Logit for acc, Z for rho and ccc), and return `self`. -/
def Agreement.ccc_approximation (ext : Ext) (a : Agreement) : Agreement :=
  let x := a._x
  let y := a._y
  let acc_range : TransformEstimator :=
    ⟨CccApprox.acc_hat x y, CccApprox.var_acc_hat a._n x y, .Logit⟩
  let rho_range : TransformEstimator :=
    ⟨CccApprox.rho_hat x y, CccApprox.var_rho_hat a._n x y, .Z⟩
  let ccc_range : TransformEstimator :=
    ⟨CccApprox.ccc_hat x y, CccApprox.var_ccc_hat a._n x y, .Z⟩
  { a with
    _acc := some
      { name := "acc"
        estimator := CccApprox.acc_hat x y
        variance := some (CccApprox.var_acc_hat a._n x y)
        limit := some (acc_range.ci ext.normPpf ALPHA .Lower a._n) }
    _rho := some
      { name := "rho"
        estimator := CccApprox.rho_hat x y
        variance := some (CccApprox.var_rho_hat a._n x y)
        limit := some (rho_range.ci ext.normPpf ALPHA .Lower a._n) }
    _ccc := some
      { name := "ccc"
        estimator := CccApprox.ccc_hat x y
        variance := some (CccApprox.var_ccc_hat a._n x y)
        limit := some (ccc_range.ci ext.normPpf ALPHA .Lower a._n) } }

namespace Ustat

/-- Embeds `sx = np.sum(x)` (line 98). -/
def sx (x : List ℝ) : ℝ := x.sum

/-- Embeds `ssx = np.sum(x**2)` (line 100). -/
def ssx (x : List ℝ) : ℝ := (x.map (fun v => v ^ 2)).sum

/-- Embeds the elementwise product `xy = x * y` (line 103). -/
def xy (x y : List ℝ) : List ℝ := List.zipWith (fun a b => a * b) x y

/-- Embeds `sxy = np.sum(xy)` (line 104). -/
def sxy (x y : List ℝ) : ℝ := (xy x y).sum

/-- Embeds `u1 = -4/n * sxy` (line 106). -/
def u1 (n : ℕ) (x y : List ℝ) : ℝ := -4 / (n : ℝ) * sxy x y

/-- Embeds `u2 = 2/n * (ssx + ssy)` (line 107). -/
def u2 (n : ℕ) (x y : List ℝ) : ℝ := 2 / (n : ℝ) * (ssx x + ssx y)

/-- Embeds `u3 = -4/(n*(n-1)) * (sx*sy - sxy)` (line 108). -/
def u3 (n : ℕ) (x y : List ℝ) : ℝ :=
  -4 / ((n : ℝ) * ((n : ℝ) - 1)) * (sx x * sx y - sxy x y)

/-- Embeds `h = (n-1) * (u3 - u1)` (line 110). -/
def h (n : ℕ) (x y : List ℝ) : ℝ := ((n : ℝ) - 1) * (u3 n x y - u1 n x y)

/-- Embeds `g = u1 + n*u2 + (n-1)*u3` (line 111). -/
def g (n : ℕ) (x y : List ℝ) : ℝ :=
  u1 n x y + (n : ℝ) * u2 n x y + ((n : ℝ) - 1) * u3 n x y

/-- Embeds the per-observation kernel `psi1 = (n-2)*xy + sxy/n` (line 113),
indexed over the paired observations. -/
def psi1 (n : ℕ) (x y : List ℝ) : List ℝ :=
  (x.zip y).map (fun p => ((n : ℝ) - 2) * (p.1 * p.2) + sxy x y / n)

/-- Embeds `psi2 = (n-2)*(x**2 - ssx/n + y**2 - ssy/n)` (line 114). -/
def psi2 (n : ℕ) (x y : List ℝ) : List ℝ :=
  (x.zip y).map (fun p =>
    ((n : ℝ) - 2) * (p.1 ^ 2 - ssx x / n + p.2 ^ 2 - ssx y / n))

/-- Embeds `psi3 = x*sy + y*sx - sx*sy/n + 2*xy + sxy/n` (line 115). -/
def psi3 (n : ℕ) (x y : List ℝ) : List ℝ :=
  (x.zip y).map (fun p =>
    p.1 * sx y + p.2 * sx x - sx x * sx y / n + 2 * (p.1 * p.2) + sxy x y / n)

/-- Sum of elementwise products of two lists, embedding `np.sum(a*b)`. -/
def dotSum (a b : List ℝ) : ℝ := (List.zipWith (fun s t => s * t) a b).sum

/-- Embeds `v_u1 = 64*np.sum(psi1**2)/(n**2*(n-1)**2)` (line 117). -/
def v_u1 (n : ℕ) (x y : List ℝ) : ℝ :=
  64 * dotSum (psi1 n x y) (psi1 n x y) / ((n : ℝ) ^ 2 * ((n : ℝ) - 1) ^ 2)

/-- Embeds `v_u2 = 4*np.sum(psi2**2)/(n**2*(n-1)**2)` (line 118). -/
def v_u2 (n : ℕ) (x y : List ℝ) : ℝ :=
  4 * dotSum (psi2 n x y) (psi2 n x y) / ((n : ℝ) ^ 2 * ((n : ℝ) - 1) ^ 2)

/-- Embeds `v_u3 = 64*np.sum(psi3**2)/(n**2*(n-1)**2)` (line 119). -/
def v_u3 (n : ℕ) (x y : List ℝ) : ℝ :=
  64 * dotSum (psi3 n x y) (psi3 n x y) / ((n : ℝ) ^ 2 * ((n : ℝ) - 1) ^ 2)

/-- Embeds `cov_u1_u2 = -16*np.sum(psi1*psi2)/(n**2*(n-1)**2)` (line 120). -/
def cov_u1_u2 (n : ℕ) (x y : List ℝ) : ℝ :=
  -16 * dotSum (psi1 n x y) (psi2 n x y) / ((n : ℝ) ^ 2 * ((n : ℝ) - 1) ^ 2)

/-- Embeds `cov_u1_u3 = 64*np.sum(psi1*psi3)/(n**2*(n-1)**2)` (line 121). -/
def cov_u1_u3 (n : ℕ) (x y : List ℝ) : ℝ :=
  64 * dotSum (psi1 n x y) (psi3 n x y) / ((n : ℝ) ^ 2 * ((n : ℝ) - 1) ^ 2)

/-- Embeds `cov_u2_u3 = -16*np.sum(psi2*psi3)/(n**2*(n-1)**2)` (line 122). -/
def cov_u2_u3 (n : ℕ) (x y : List ℝ) : ℝ :=
  -16 * dotSum (psi2 n x y) (psi3 n x y) / ((n : ℝ) ^ 2 * ((n : ℝ) - 1) ^ 2)

/-- Embeds `v_h = (n-1)**2 * (v_u3 + v_u1 - 2*cov_u1_u3)` (line 124). -/
def v_h (n : ℕ) (x y : List ℝ) : ℝ :=
  ((n : ℝ) - 1) ^ 2 * (v_u3 n x y + v_u1 n x y - 2 * cov_u1_u3 n x y)

/-- Embeds `v_g` (line 125). -/
def v_g (n : ℕ) (x y : List ℝ) : ℝ :=
  v_u1 n x y + (n : ℝ) ^ 2 * v_u2 n x y + ((n : ℝ) - 1) ^ 2 * v_u3 n x y +
    2 * (n : ℝ) * cov_u1_u2 n x y + 2 * ((n : ℝ) - 1) * cov_u1_u3 n x y +
    2 * (n : ℝ) * ((n : ℝ) - 1) * cov_u2_u3 n x y

/-- Embeds `cov_h_g` (line 126). -/
def cov_h_g (n : ℕ) (x y : List ℝ) : ℝ :=
  ((n : ℝ) - 1) *
    (-((n : ℝ) - 2) * cov_u1_u3 n x y + (n : ℝ) * cov_u2_u3 n x y +
      ((n : ℝ) - 1) * v_u3 n x y - v_u1 n x y - (n : ℝ) * cov_u1_u2 n x y)

/-- Embeds `ccc_hat = h/g` (line 128). -/
def ccc_hat (n : ℕ) (x y : List ℝ) : ℝ := h n x y / g n x y

/-- Embeds `var_ccc_hat = ccc_hat**2 * (v_h/h**2 - 2*cov_h_g/(h*g) + v_g/g**2)`
(line 129). -/
def var_ccc_hat (n : ℕ) (x y : List ℝ) : ℝ :=
  ccc_hat n x y ^ 2 *
    (v_h n x y / h n x y ^ 2 - 2 * cov_h_g n x y / (h n x y * g n x y) +
      v_g n x y / g n x y ^ 2)

/-- Embeds `var_z_hat = var_ccc_hat / (1 - ccc_hat**2)**2` (line 130). -/
def var_z_hat (n : ℕ) (x y : List ℝ) : ℝ :=
  var_ccc_hat n x y / (1 - ccc_hat n x y ^ 2) ^ 2

end Ustat

/-- Embeds `Agreement.ccc_ustat` (lines 92-145): populate the `ccc_ustat`
Estimator (point estimate `h/g`, original-scale variance, Lower limit from a
Z-transform `TransformEstimator` built with the Fisher-z-scale variance) and
the `z_ustat` Estimator (transform-scale value and variance, no limit), and
return `self`. -/
def Agreement.ccc_ustat (ext : Ext) (a : Agreement) : Agreement :=
  let n := a._n
  let x := a._x
  let y := a._y
  let ccc_range : TransformEstimator :=
    ⟨Ustat.ccc_hat n x y, Ustat.var_z_hat n x y, .Z⟩
  { a with
    _ccc_ustat := some
      { name := "ccc_ustat"
        estimator := Ustat.ccc_hat n x y
        variance := some (Ustat.var_ccc_hat n x y)
        limit := some (ccc_range.ci ext.normPpf ALPHA .Lower a._n) }
    _z_ustat := some
      { name := "z_ustat"
        estimator := TransformFunc.Z.apply (Ustat.ccc_hat n x y)
        variance := some (Ustat.var_z_hat n x y)
        limit := none } }

namespace CpTdi

/-- Embeds the elementwise difference `D = x - y` (line 149). -/
def D (x y : List ℝ) : List ℝ := List.zipWith (fun a b => a - b) x y

/-- Embeds `s_sq_hat_d = n/(n-3) * (Sxx + Syy - 2*Sxy)` (line 151). -/
def s_sq_hat_d (n : ℕ) (x y : List ℝ) : ℝ :=
  (n : ℝ) / ((n : ℝ) - 3) *
    (biasedCov x x + biasedCov y y - 2 * biasedCov x y)

/-- Embeds `mu_d = np.mean(D)` (line 152). -/
def mu_d (x y : List ℝ) : ℝ := mean (D x y)

/-- Embeds `eps_sq_hat = np.sum(D**2) / (n-1)` (line 154). -/
def eps_sq_hat (n : ℕ) (x y : List ℝ) : ℝ :=
  ((D x y).map (fun v => v ^ 2)).sum / ((n : ℝ) - 1)

/-- Embeds `var_esp_hat = 2/(n-2) * (1 - mu_d**4 / eps_sq_hat**2)` (line 155). -/
def var_esp_hat (n : ℕ) (x y : List ℝ) : ℝ :=
  2 / ((n : ℝ) - 2) * (1 - mu_d x y ^ 4 / eps_sq_hat n x y ^ 2)

/-- Embeds `rbs_hat = mu_d**2 / s_sq_hat_d` (line 164). -/
def rbs_hat (n : ℕ) (x y : List ℝ) : ℝ := mu_d x y ^ 2 / s_sq_hat_d n x y

/-- Embeds `delta_plus = (delta_criterion + mu_d) / np.sqrt(s_sq_hat_d)`
(line 172). -/
def delta_plus (n : ℕ) (x y : List ℝ) (delta : ℝ) : ℝ :=
  (delta + mu_d x y) / Real.sqrt (s_sq_hat_d n x y)

/-- Embeds `delta_minus = (delta_criterion - mu_d) / np.sqrt(s_sq_hat_d)`
(line 174). -/
def delta_minus (n : ℕ) (x y : List ℝ) (delta : ℝ) : ℝ :=
  (delta - mu_d x y) / Real.sqrt (s_sq_hat_d n x y)

/-- Embeds `cp_hat = ncx2.cdf(delta_criterion, df=1, nc=rbs_hat)` (line 177). -/
def cp_hat (ext : Ext) (n : ℕ) (x y : List ℝ) (delta : ℝ) : ℝ :=
  ext.ncx2cdf delta 1 (rbs_hat n x y)

/-- Embeds `var_cp_hat` (lines 178-179), with
`n_delta_plus = norm.pdf(-delta_plus)` and
`n_delta_minus = norm.pdf(delta_minus)` (lines 173, 175). -/
def var_cp_hat (ext : Ext) (n : ℕ) (x y : List ℝ) (delta : ℝ) : ℝ :=
  1 / 2 *
    ((delta_plus n x y delta * ext.normPdf (-delta_plus n x y delta) +
        delta_minus n x y delta * ext.normPdf (delta_minus n x y delta)) ^ 2 +
      (ext.normPdf (-delta_plus n x y delta) -
        ext.normPdf (delta_minus n x y delta)) ^ 2) /
    (((n : ℝ) - 3) * (1 - cp_hat ext n x y delta) ^ 2 *
      cp_hat ext n x y delta ^ 2)

/-- Embeds `coeff_tdi = norm.ppf(1 - (1 - pi_criterion) / 2)` (line 188). -/
def coeff_tdi (ext : Ext) (pi : ℝ) : ℝ := ext.normPpf (1 - (1 - pi) / 2)

end CpTdi

/-- Embeds `Agreement.cp_tdi_approximation` (lines 147-196): populate the
`msd` Estimator (Upper limit via the Log transform), the `rbs` Estimator
(no variance, no limit), the `cp` Estimator (Lower limit via the Logit
transform) and the `tdi` Estimator (no variance; limit derived from msd's
Upper limit), and return `self`. -/
def Agreement.cp_tdi_approximation (ext : Ext) (a : Agreement) : Agreement :=
  let n := a._n
  let x := a._x
  let y := a._y
  let esp_range : TransformEstimator :=
    ⟨CpTdi.eps_sq_hat n x y, CpTdi.var_esp_hat n x y, .Log⟩
  let msd_limit := esp_range.ci ext.normPpf ALPHA .Upper a._n
  let cp_range : TransformEstimator :=
    ⟨CpTdi.cp_hat ext n x y a._delta_criterion,
      CpTdi.var_cp_hat ext n x y a._delta_criterion, .Logit⟩
  { a with
    _msd := some
      { name := "msd"
        estimator := CpTdi.eps_sq_hat n x y
        variance := some (CpTdi.var_esp_hat n x y)
        limit := some msd_limit }
    _rbs := some
      { name := "rbs"
        estimator := CpTdi.rbs_hat n x y
        variance := none
        limit := none }
    _cp := some
      { name := "cp"
        estimator := CpTdi.cp_hat ext n x y a._delta_criterion
        variance := some (CpTdi.var_cp_hat ext n x y a._delta_criterion)
        limit := some (cp_range.ci ext.normPpf ALPHA .Lower a._n) }
    _tdi := some
      { name := "tdi"
        estimator := CpTdi.coeff_tdi ext a._pi_criterion *
          Real.sqrt (CpTdi.eps_sq_hat n x y)
        variance := none
        limit := some (CpTdi.coeff_tdi ext a._pi_criterion *
          Real.sqrt msd_limit) } }

/-! Theorems settling the claims. -/

/-- Claim C6: the allowance helper `cp_tdi_approximation(rbs, cp_allowance)`
returns true iff the allowance level is one of 0.75, 0.8, 0.85, 0.9, 0.95 and
rbs is at most the corresponding threshold 1/2, 8, 2, 1, 1/2; any level not in
the table yields false, with no fallback or interpolation. -/
theorem claim_C6_allowance_table (rbs cp_allowance : ℝ) :
    cp_tdi_approximation rbs cp_allowance = true ↔
      (cp_allowance = 0.75 ∧ rbs ≤ 1 / 2) ∨ (cp_allowance = 0.8 ∧ rbs ≤ 8) ∨
      (cp_allowance = 0.85 ∧ rbs ≤ 2) ∨ (cp_allowance = 0.9 ∧ rbs ≤ 1) ∨
      (cp_allowance = 0.95 ∧ rbs ≤ 1 / 2) := by
  unfold cp_tdi_approximation
  constructor
  · intro hb
    split_ifs at hb with h1 h2 h3 h4 h5
    · exact Or.inl h1
    · exact Or.inr (Or.inl h2)
    · exact Or.inr (Or.inr (Or.inl h3))
    · exact Or.inr (Or.inr (Or.inr (Or.inl h4)))
    · exact Or.inr (Or.inr (Or.inr (Or.inr h5)))
  · intro hd
    split_ifs with h1 h2 h3 h4 h5
    · rfl
    · rfl
    · rfl
    · rfl
    · rfl
    · exfalso
      rcases hd with h | h | h | h | h
      exacts [h1 h, h2 h, h3 h, h4 h, h5 h]

/-- Claim C10: constructing an Agreement performs no input validation: for
every pair of lists (unequal lengths, empty or constant lists included) the
constructor succeeds, stores the inputs and criteria unchanged, sets `_n` to
the length of `x` alone, and produces no estimation result (every result slot
is still empty). -/
theorem claim_C10_init_no_validation (x y : List ℝ) (d p : ℝ) :
    (mkAgreement x y d p)._n = x.length ∧
    (mkAgreement x y d p)._x = x ∧
    (mkAgreement x y d p)._y = y ∧
    (mkAgreement x y d p)._delta_criterion = d ∧
    (mkAgreement x y d p)._pi_criterion = p ∧
    (mkAgreement x y d p)._acc = none ∧
    (mkAgreement x y d p)._rho = none ∧
    (mkAgreement x y d p)._ccc = none ∧
    (mkAgreement x y d p)._ccc_ustat = none ∧
    (mkAgreement x y d p)._z_ustat = none ∧
    (mkAgreement x y d p)._msd = none ∧
    (mkAgreement x y d p)._rbs = none ∧
    (mkAgreement x y d p)._cp = none ∧
    (mkAgreement x y d p)._tdi = none :=
  ⟨rfl, rfl, rfl, rfl, rfl, rfl, rfl, rfl, rfl, rfl, rfl, rfl, rfl, rfl⟩

/-- Claim C8: each of the three estimation procedures is idempotent on an
Agreement instance: running the same procedure a second time with unchanged
inputs recomputes exactly the same named estimators, leaving the instance
unchanged. -/
theorem claim_C8_idempotent (ext : Ext) (a : Agreement) :
    Agreement.ccc_approximation ext (Agreement.ccc_approximation ext a) =
      Agreement.ccc_approximation ext a ∧
    Agreement.ccc_ustat ext (Agreement.ccc_ustat ext a) =
      Agreement.ccc_ustat ext a ∧
    Agreement.cp_tdi_approximation ext (Agreement.cp_tdi_approximation ext a) =
      Agreement.cp_tdi_approximation ext a :=
  ⟨rfl, rfl, rfl⟩

/-- The biased covariance of two constant samples is zero (for empty samples
it is the junk value `0 / 0 = 0`). -/
theorem biasedCov_replicate (n : ℕ) (c d : ℝ) :
    biasedCov (List.replicate n c) (List.replicate n d) = 0 := by
  rcases Nat.eq_zero_or_pos n with hn | hn
  · subst hn
    simp [biasedCov]
  · have hmc : mean (List.replicate n c) = c := by
      rw [mean]
      simp only [List.sum_replicate, List.length_replicate, smul_eq_mul]
      field_simp
    have hmd : mean (List.replicate n d) = d := by
      rw [mean]
      simp only [List.sum_replicate, List.length_replicate, smul_eq_mul]
      field_simp
    rw [biasedCov, hmc, hmd]
    simp

/-- Claim C4, corrected: `ccc_approximation` performs no domain validation at
all and never fails with a catchable error: on every input (those with n < 4
or with `Sxx = Syy = 0` included) it completes and populates the acc, rho and
ccc Estimators.  The degenerate quantities are instead silently computed
through division by zero and propagated: on perfectly constant inputs of any
length the rho, acc and ccc point estimates themselves are the junk of the
division by zero (IEEE NaN in the source, `0` under the real-field convention
`x / 0 = 0`); on inputs of length 3 the point estimates are ordinary finite
values but `var(rho) = (1 - rho^2/2)/(n-3)` divides by zero, and that junk
variance (Inf/NaN in floats, `0` in the embedding) is stored on the rho
Estimator and fed into its confidence limit, signaling nothing to the
caller. -/
theorem claim_C4_no_domain_error (ext : Ext) (a : Agreement) (n : ℕ)
    (c d dl pi : ℝ) (x y : List ℝ) (h3 : x.length = 3) :
    ((Agreement.ccc_approximation ext a)._acc).isSome = true ∧
    ((Agreement.ccc_approximation ext a)._rho).isSome = true ∧
    ((Agreement.ccc_approximation ext a)._ccc).isSome = true ∧
    (((Agreement.ccc_approximation ext
          (mkAgreement (List.replicate n c) (List.replicate n d) dl pi))._rho).map
        Estimator.estimator = some 0) ∧
    (((Agreement.ccc_approximation ext
          (mkAgreement (List.replicate n c) (List.replicate n d) dl pi))._acc).map
        Estimator.estimator = some 0) ∧
    (((Agreement.ccc_approximation ext
          (mkAgreement (List.replicate n c) (List.replicate n d) dl pi))._ccc).map
        Estimator.estimator = some 0) ∧
    (((Agreement.ccc_approximation ext (mkAgreement x y dl pi))._rho).map
        Estimator.variance = some (some 0)) ∧
    (((Agreement.ccc_approximation ext (mkAgreement x y dl pi))._rho).map
        Estimator.limit = some (some (TransformEstimator.ci
          ⟨CccApprox.rho_hat x y, 0, TransformFunc.Z⟩ ext.normPpf ALPHA
          ConfidentLimit.Lower 3))) := by
  have hrho : CccApprox.rho_hat (List.replicate n c) (List.replicate n d) = 0 := by
    rw [CccApprox.rho_hat, biasedCov_replicate, zero_div]
  have hacc : CccApprox.acc_hat (List.replicate n c) (List.replicate n d) = 0 := by
    rw [CccApprox.acc_hat, CccApprox.sqr_var, biasedCov_replicate,
      biasedCov_replicate, zero_mul, Real.sqrt_zero, mul_zero, zero_div]
  have hccc : CccApprox.ccc_hat (List.replicate n c) (List.replicate n d) = 0 := by
    rw [CccApprox.ccc_hat, hrho, mul_zero]
  have hvrho : CccApprox.var_rho_hat x.length x y = 0 := by
    rw [CccApprox.var_rho_hat, h3]
    norm_num
  refine ⟨rfl, rfl, rfl, ?_, ?_, ?_, ?_, ?_⟩
  · simp [Agreement.ccc_approximation, mkAgreement, hrho]
  · simp [Agreement.ccc_approximation, mkAgreement, hacc]
  · simp [Agreement.ccc_approximation, mkAgreement, hccc]
  · simp only [Agreement.ccc_approximation, mkAgreement]
    rw [hvrho]
    rfl
  · simp only [Agreement.ccc_approximation, mkAgreement]
    rw [hvrho, h3]
    rfl

/-- Claim C4, witness: at the length-3, non-constant input `x = [1, 2, 3]`,
`y = [3, 2, 1]` (n = 3 < 4), the procedure still populates the rho Estimator,
and the variance it stores there is the junk value of the division by
`n - 3 = 0`. -/
theorem claim_C4_witness :
    ([(1 : ℝ), 2, 3] : List ℝ).length = 3 ∧
    (((Agreement.ccc_approximation extZero
          (mkAgreement [(1 : ℝ), 2, 3] [(3 : ℝ), 2, 1] CP_DELTA TDI_PI))._rho).map
        Estimator.variance = some (some 0)) :=
  ⟨by norm_num,
    (claim_C4_no_domain_error extZero
        (mkAgreement [] [] CP_DELTA TDI_PI) 0 0 0 CP_DELTA TDI_PI
        [(1 : ℝ), 2, 3] [(3 : ℝ), 2, 1] (by norm_num)).2.2.2.2.2.2.1⟩

/-- Claim C4, counterexample to the claim as stated: on the degenerate input
`x = y = [1,1,1,1]` (n = 4, perfectly constant, `Sxx = Syy = 0`) the procedure
does not fail with a catchable domain error before or at the division: it
completes and returns fully populated rho, acc and ccc Estimators carrying the
junk result `0` of the division by zero. -/
theorem claim_C4_counterexample :
    (((Agreement.ccc_approximation extZero
          (mkAgreement [(1 : ℝ), 1, 1, 1] [(1 : ℝ), 1, 1, 1]
            CP_DELTA TDI_PI))._rho).map Estimator.estimator = some 0) ∧
    (((Agreement.ccc_approximation extZero
          (mkAgreement [(1 : ℝ), 1, 1, 1] [(1 : ℝ), 1, 1, 1]
            CP_DELTA TDI_PI))._acc).map Estimator.estimator = some 0) ∧
    (((Agreement.ccc_approximation extZero
          (mkAgreement [(1 : ℝ), 1, 1, 1] [(1 : ℝ), 1, 1, 1]
            CP_DELTA TDI_PI))._ccc).map Estimator.estimator = some 0) := by
  have hcov : biasedCov [(1 : ℝ), 1, 1, 1] [(1 : ℝ), 1, 1, 1] = 0 := by
    norm_num [biasedCov, mean, List.zip_cons_cons]
  have hrho : CccApprox.rho_hat [(1 : ℝ), 1, 1, 1] [(1 : ℝ), 1, 1, 1] = 0 := by
    rw [CccApprox.rho_hat, hcov, zero_div]
  have hacc : CccApprox.acc_hat [(1 : ℝ), 1, 1, 1] [(1 : ℝ), 1, 1, 1] = 0 := by
    rw [CccApprox.acc_hat, CccApprox.sqr_var, hcov]
    simp
  have hccc : CccApprox.ccc_hat [(1 : ℝ), 1, 1, 1] [(1 : ℝ), 1, 1, 1] = 0 := by
    rw [CccApprox.ccc_hat, hrho, mul_zero]
  refine ⟨?_, ?_, ?_⟩ <;>
    simp [Agreement.ccc_approximation, mkAgreement, hrho, hacc, hccc]

/-- Claim C1: `ccc_approximation` produces the estimators
`rho = Sxy / sqrt(Sxx*Syy)`, `acc = 2*sqrt(Sxx*Syy) / (Sxx + Syy + mu_d^2)`
and `ccc = acc * rho` (with `mu_d = mean x - mean y` and Sxx, Sxy, Syy the
biased covariances), `nu^2 = mu_d^2 / sqrt(Sxx*Syy)`,
`omega = sqrt(Sxx/Syy)`, with `var(rho) = (1 - rho^2/2)/(n-3)` and `var(ccc)`
given by its closed form with an `n-2` denominator. -/
theorem claim_C1_ccc_approximation (ext : Ext) (x y : List ℝ) (d p : ℝ) :
    ((Agreement.ccc_approximation ext (mkAgreement x y d p))._rho).map
        Estimator.estimator =
      some (biasedCov x y / Real.sqrt (biasedCov x x * biasedCov y y)) ∧
    ((Agreement.ccc_approximation ext (mkAgreement x y d p))._acc).map
        Estimator.estimator =
      some (2 * Real.sqrt (biasedCov x x * biasedCov y y) /
        (biasedCov x x + biasedCov y y + (mean x - mean y) ^ 2)) ∧
    ((Agreement.ccc_approximation ext (mkAgreement x y d p))._ccc).map
        Estimator.estimator =
      some ((2 * Real.sqrt (biasedCov x x * biasedCov y y) /
          (biasedCov x x + biasedCov y y + (mean x - mean y) ^ 2)) *
        (biasedCov x y / Real.sqrt (biasedCov x x * biasedCov y y))) ∧
    CccApprox.nu_sq_hat x y =
      (mean x - mean y) ^ 2 / Real.sqrt (biasedCov x x * biasedCov y y) ∧
    CccApprox.omega_hat x y = Real.sqrt (biasedCov x x / biasedCov y y) ∧
    ((Agreement.ccc_approximation ext (mkAgreement x y d p))._rho).map
        Estimator.variance =
      some (some ((1 -
          (biasedCov x y / Real.sqrt (biasedCov x x * biasedCov y y)) ^ 2 / 2) /
        ((x.length : ℝ) - 3))) ∧
    ((Agreement.ccc_approximation ext (mkAgreement x y d p))._ccc).map
        Estimator.variance =
      some (some (1 / ((x.length : ℝ) - 2) *
        ((1 - CccApprox.rho_hat x y ^ 2) * CccApprox.ccc_hat x y ^ 2 /
            ((1 - CccApprox.ccc_hat x y ^ 2) * CccApprox.rho_hat x y ^ 2) +
          2 * CccApprox.ccc_hat x y ^ 3 * (1 - CccApprox.ccc_hat x y) *
              CccApprox.nu_sq_hat x y /
            (CccApprox.rho_hat x y * (1 - CccApprox.ccc_hat x y ^ 2) ^ 2) -
          CccApprox.ccc_hat x y ^ 4 * CccApprox.nu_sq_hat x y ^ 2 /
            (2 * CccApprox.rho_hat x y ^ 2 *
              (1 - CccApprox.ccc_hat x y ^ 2) ^ 2)))) :=
  ⟨rfl, rfl, rfl, rfl, rfl, rfl, rfl⟩

/-- Claim C2: `ccc_ustat` computes the kernels `u1 = -4/n * sum(xy)`,
`u2 = 2/n * (sum(x^2) + sum(y^2))`, `u3 = -4/(n(n-1)) * (sum(x)sum(y) -
sum(xy))`, combines them into `h = (n-1)(u3 - u1)` and
`g = u1 + n*u2 + (n-1)*u3`, stores the point estimate `ccc = h/g` with
variance `var(ccc) = ccc^2 * (v_h/h^2 - 2*cov_hg/(h*g) + v_g/g^2)`, and the
Fisher-z-scale variance (stored on the z_ustat Estimator) equals
`var(ccc)/(1-ccc^2)^2`. -/
theorem claim_C2_ccc_ustat (ext : Ext) (x y : List ℝ) (d p : ℝ) :
    Ustat.u1 x.length x y =
      -4 / (x.length : ℝ) * (List.zipWith (fun a b => a * b) x y).sum ∧
    Ustat.u2 x.length x y =
      2 / (x.length : ℝ) *
        ((x.map (fun v => v ^ 2)).sum + (y.map (fun v => v ^ 2)).sum) ∧
    Ustat.u3 x.length x y =
      -4 / ((x.length : ℝ) * ((x.length : ℝ) - 1)) *
        (x.sum * y.sum - (List.zipWith (fun a b => a * b) x y).sum) ∧
    Ustat.h x.length x y =
      ((x.length : ℝ) - 1) * (Ustat.u3 x.length x y - Ustat.u1 x.length x y) ∧
    Ustat.g x.length x y =
      Ustat.u1 x.length x y + (x.length : ℝ) * Ustat.u2 x.length x y +
        ((x.length : ℝ) - 1) * Ustat.u3 x.length x y ∧
    ((Agreement.ccc_ustat ext (mkAgreement x y d p))._ccc_ustat).map
        Estimator.estimator =
      some (Ustat.h x.length x y / Ustat.g x.length x y) ∧
    ((Agreement.ccc_ustat ext (mkAgreement x y d p))._ccc_ustat).map
        Estimator.variance =
      some (some (Ustat.ccc_hat x.length x y ^ 2 *
        (Ustat.v_h x.length x y / Ustat.h x.length x y ^ 2 -
          2 * Ustat.cov_h_g x.length x y /
            (Ustat.h x.length x y * Ustat.g x.length x y) +
          Ustat.v_g x.length x y / Ustat.g x.length x y ^ 2))) ∧
    ((Agreement.ccc_ustat ext (mkAgreement x y d p))._z_ustat).map
        Estimator.variance =
      some (some (Ustat.var_ccc_hat x.length x y /
        (1 - Ustat.ccc_hat x.length x y ^ 2) ^ 2)) :=
  ⟨rfl, rfl, rfl, rfl, rfl, rfl, rfl, rfl⟩

/-- Claim C3: `cp_tdi_approximation` computes `s^2_d` as `n/(n-3)` times
`Sxx + Syy - 2*Sxy` from the biased covariances; the MSD point estimate as
`sum(D^2)/(n-1)` with variance `2/(n-2) * (1 - mu_d^4/eps^4)` (an `n-2`
denominator) and an Upper confidence limit via the Log transform; `rbs =
mu_d^2 / s^2_d` with no variance and no limit; and `cp` as the CDF of the
noncentral chi-squared distribution with df 1 and noncentrality `rbs`
evaluated at the delta criterion. -/
theorem claim_C3_cp_tdi_approximation (ext : Ext) (x y : List ℝ) (d p : ℝ) :
    CpTdi.s_sq_hat_d x.length x y =
      (x.length : ℝ) / ((x.length : ℝ) - 3) *
        (biasedCov x x + biasedCov y y - 2 * biasedCov x y) ∧
    ((Agreement.cp_tdi_approximation ext (mkAgreement x y d p))._msd).map
        Estimator.estimator =
      some (((List.zipWith (fun a b => a - b) x y).map (fun v => v ^ 2)).sum /
        ((x.length : ℝ) - 1)) ∧
    ((Agreement.cp_tdi_approximation ext (mkAgreement x y d p))._msd).map
        Estimator.variance =
      some (some (2 / ((x.length : ℝ) - 2) *
        (1 - mean (List.zipWith (fun a b => a - b) x y) ^ 4 /
          CpTdi.eps_sq_hat x.length x y ^ 2))) ∧
    ((Agreement.cp_tdi_approximation ext (mkAgreement x y d p))._msd).map
        Estimator.limit =
      some (some (TransformEstimator.ci
        ⟨CpTdi.eps_sq_hat x.length x y, CpTdi.var_esp_hat x.length x y,
          TransformFunc.Log⟩
        ext.normPpf ALPHA ConfidentLimit.Upper x.length)) ∧
    ((Agreement.cp_tdi_approximation ext (mkAgreement x y d p))._rbs).map
        Estimator.estimator =
      some (mean (List.zipWith (fun a b => a - b) x y) ^ 2 /
        CpTdi.s_sq_hat_d x.length x y) ∧
    ((Agreement.cp_tdi_approximation ext (mkAgreement x y d p))._rbs).map
        Estimator.variance = some none ∧
    ((Agreement.cp_tdi_approximation ext (mkAgreement x y d p))._rbs).map
        Estimator.limit = some none ∧
    ((Agreement.cp_tdi_approximation ext (mkAgreement x y d p))._cp).map
        Estimator.estimator =
      some (ext.ncx2cdf d 1 (CpTdi.rbs_hat x.length x y)) :=
  ⟨rfl, rfl, rfl, rfl, rfl, rfl, rfl, rfl⟩

/-- Claim C5: the tdi Estimator's value equals the standard normal quantile at
cumulative probability `(1+pi)/2` times the square root of the msd value, its
variance is undefined, and its Upper limit equals the same quantile
coefficient times the square root of the msd Estimator's Upper limit. -/
theorem claim_C5_tdi_from_msd (ext : Ext) (x y : List ℝ) (d p : ℝ) :
    ((Agreement.cp_tdi_approximation ext (mkAgreement x y d p))._tdi).map
        Estimator.estimator =
      some (ext.normPpf ((1 + p) / 2) *
        Real.sqrt (CpTdi.eps_sq_hat x.length x y)) ∧
    ((Agreement.cp_tdi_approximation ext (mkAgreement x y d p))._tdi).map
        Estimator.variance = some none ∧
    ((Agreement.cp_tdi_approximation ext (mkAgreement x y d p))._tdi).map
        Estimator.limit =
      some (some (ext.normPpf ((1 + p) / 2) *
        Real.sqrt (TransformEstimator.ci
          ⟨CpTdi.eps_sq_hat x.length x y, CpTdi.var_esp_hat x.length x y,
            TransformFunc.Log⟩
          ext.normPpf ALPHA ConfidentLimit.Upper x.length))) := by
  have hp : (1 : ℝ) - (1 - p) / 2 = (1 + p) / 2 := by ring
  refine ⟨?_, rfl, ?_⟩
  · show some (ext.normPpf ((1 : ℝ) - (1 - p) / 2) *
        Real.sqrt (CpTdi.eps_sq_hat x.length x y)) = _
    rw [hp]
  · show some (some (ext.normPpf ((1 : ℝ) - (1 - p) / 2) *
        Real.sqrt (TransformEstimator.ci
          ⟨CpTdi.eps_sq_hat x.length x y, CpTdi.var_esp_hat x.length x y,
            TransformFunc.Log⟩
          ext.normPpf ALPHA ConfidentLimit.Upper x.length))) = _
    rw [hp]

/-- Claim C7: for every Estimator with a defined limit the direction is fixed:
acc, rho, ccc, ccc_ustat and cp always receive Lower confidence limits, msd
always receives an Upper confidence limit, and tdi's limit is always the
quantile coefficient times the square root of msd's Upper limit; z_ustat and
rbs receive no limit.  No procedure ever swaps these directions. -/
theorem claim_C7_limit_directions (ext : Ext) (x y : List ℝ) (d p : ℝ) :
    ((Agreement.ccc_approximation ext (mkAgreement x y d p))._acc).map
        Estimator.limit =
      some (some (TransformEstimator.ci
        ⟨CccApprox.acc_hat x y, CccApprox.var_acc_hat x.length x y,
          TransformFunc.Logit⟩ ext.normPpf ALPHA ConfidentLimit.Lower
        x.length)) ∧
    ((Agreement.ccc_approximation ext (mkAgreement x y d p))._rho).map
        Estimator.limit =
      some (some (TransformEstimator.ci
        ⟨CccApprox.rho_hat x y, CccApprox.var_rho_hat x.length x y,
          TransformFunc.Z⟩ ext.normPpf ALPHA ConfidentLimit.Lower x.length)) ∧
    ((Agreement.ccc_approximation ext (mkAgreement x y d p))._ccc).map
        Estimator.limit =
      some (some (TransformEstimator.ci
        ⟨CccApprox.ccc_hat x y, CccApprox.var_ccc_hat x.length x y,
          TransformFunc.Z⟩ ext.normPpf ALPHA ConfidentLimit.Lower x.length)) ∧
    ((Agreement.ccc_ustat ext (mkAgreement x y d p))._ccc_ustat).map
        Estimator.limit =
      some (some (TransformEstimator.ci
        ⟨Ustat.ccc_hat x.length x y, Ustat.var_z_hat x.length x y,
          TransformFunc.Z⟩ ext.normPpf ALPHA ConfidentLimit.Lower x.length)) ∧
    ((Agreement.ccc_ustat ext (mkAgreement x y d p))._z_ustat).map
        Estimator.limit = some none ∧
    ((Agreement.cp_tdi_approximation ext (mkAgreement x y d p))._cp).map
        Estimator.limit =
      some (some (TransformEstimator.ci
        ⟨CpTdi.cp_hat ext x.length x y d, CpTdi.var_cp_hat ext x.length x y d,
          TransformFunc.Logit⟩ ext.normPpf ALPHA ConfidentLimit.Lower
        x.length)) ∧
    ((Agreement.cp_tdi_approximation ext (mkAgreement x y d p))._msd).map
        Estimator.limit =
      some (some (TransformEstimator.ci
        ⟨CpTdi.eps_sq_hat x.length x y, CpTdi.var_esp_hat x.length x y,
          TransformFunc.Log⟩ ext.normPpf ALPHA ConfidentLimit.Upper
        x.length)) ∧
    ((Agreement.cp_tdi_approximation ext (mkAgreement x y d p))._tdi).map
        Estimator.limit =
      some (some (CpTdi.coeff_tdi ext p *
        Real.sqrt (TransformEstimator.ci
          ⟨CpTdi.eps_sq_hat x.length x y, CpTdi.var_esp_hat x.length x y,
            TransformFunc.Log⟩ ext.normPpf ALPHA ConfidentLimit.Upper
          x.length))) :=
  ⟨rfl, rfl, rfl, rfl, rfl, rfl, rfl, rfl⟩

/-- Claim C9, amended: in `ccc_ustat` the variance supplied to the
transform-based confidence-limit machinery for the Lower limit is the
Fisher-z-scale variance `var(ccc)/(1-ccc^2)^2`, not the original-scale
`var(ccc)` stored in the Estimator's variance field; consequently, whenever
`(1-ccc^2)^2` is not 1 AND `var(ccc)` is nonzero, the stored variance differs
from the variance used to compute the limit.  (The weakening by the extra
nonzero-variance hypothesis is forced: when `var(ccc) = 0` both scales
coincide at 0 even though `(1-ccc^2)^2` is not 1.) -/
theorem claim_C9_variance_mismatch (ext : Ext) (x y : List ℝ) (d p : ℝ)
    (h1 : (1 - Ustat.ccc_hat x.length x y ^ 2) ^ 2 ≠ 1)
    (h2 : Ustat.var_ccc_hat x.length x y ≠ 0) :
    ((Agreement.ccc_ustat ext (mkAgreement x y d p))._ccc_ustat) =
      some { name := "ccc_ustat"
             estimator := Ustat.ccc_hat x.length x y
             variance := some (Ustat.var_ccc_hat x.length x y)
             limit := some (TransformEstimator.ci
               ⟨Ustat.ccc_hat x.length x y, Ustat.var_z_hat x.length x y,
                 TransformFunc.Z⟩
               ext.normPpf ALPHA ConfidentLimit.Lower x.length) } ∧
    Ustat.var_z_hat x.length x y =
      Ustat.var_ccc_hat x.length x y /
        (1 - Ustat.ccc_hat x.length x y ^ 2) ^ 2 ∧
    Ustat.var_ccc_hat x.length x y ≠ Ustat.var_z_hat x.length x y := by
  refine ⟨rfl, rfl, ?_⟩
  intro heq
  rcases eq_or_ne ((1 - Ustat.ccc_hat x.length x y ^ 2) ^ 2) 0 with hk | hk
  · rw [Ustat.var_z_hat, hk, div_zero] at heq
    exact h2 heq
  · rw [Ustat.var_z_hat, eq_div_iff hk] at heq
    have h4 : Ustat.var_ccc_hat x.length x y *
        ((1 - Ustat.ccc_hat x.length x y ^ 2) ^ 2 - 1) = 0 := by
      linear_combination heq
    rcases mul_eq_zero.mp h4 with h5 | h5
    · exact h2 h5
    · exact h1 (by linarith)

/-- Claim C9, witness: at `x = [1,2,3,4]`, `y = [1,3,2,4]` the hypotheses of
the amended claim hold (there `ccc = 4/5` and `var(ccc) = 1679/125`), and the
stored original-scale variance indeed differs from the Fisher-z-scale variance
used for the confidence limit. -/
theorem claim_C9_witness :
    (1 - Ustat.ccc_hat 4 [(1 : ℝ), 2, 3, 4] [(1 : ℝ), 3, 2, 4] ^ 2) ^ 2 ≠ 1 ∧
    Ustat.var_ccc_hat 4 [(1 : ℝ), 2, 3, 4] [(1 : ℝ), 3, 2, 4] ≠ 0 ∧
    Ustat.var_ccc_hat 4 [(1 : ℝ), 2, 3, 4] [(1 : ℝ), 3, 2, 4] ≠
      Ustat.var_z_hat 4 [(1 : ℝ), 2, 3, 4] [(1 : ℝ), 3, 2, 4] := by
  have hc : Ustat.ccc_hat 4 [(1 : ℝ), 2, 3, 4] [(1 : ℝ), 3, 2, 4] = 4 / 5 := by
    norm_num [Ustat.ccc_hat, Ustat.h, Ustat.g, Ustat.u1, Ustat.u2, Ustat.u3,
      Ustat.sx, Ustat.ssx, Ustat.sxy, Ustat.xy]
  have hv : Ustat.var_ccc_hat 4 [(1 : ℝ), 2, 3, 4] [(1 : ℝ), 3, 2, 4] =
      1679 / 125 := by
    norm_num [Ustat.var_ccc_hat, Ustat.ccc_hat, Ustat.v_h, Ustat.v_g,
      Ustat.cov_h_g, Ustat.v_u1, Ustat.v_u2, Ustat.v_u3, Ustat.cov_u1_u2,
      Ustat.cov_u1_u3, Ustat.cov_u2_u3, Ustat.h, Ustat.g, Ustat.u1, Ustat.u2,
      Ustat.u3, Ustat.dotSum, Ustat.psi1, Ustat.psi2, Ustat.psi3, Ustat.sx,
      Ustat.ssx, Ustat.sxy, Ustat.xy, List.zip_cons_cons]
  have h1 : (1 - Ustat.ccc_hat 4 [(1 : ℝ), 2, 3, 4] [(1 : ℝ), 3, 2, 4] ^ 2) ^ 2
      ≠ 1 := by
    rw [hc]; norm_num
  have h2 : Ustat.var_ccc_hat 4 [(1 : ℝ), 2, 3, 4] [(1 : ℝ), 3, 2, 4] ≠ 0 := by
    rw [hv]; norm_num
  exact ⟨h1, h2,
    (claim_C9_variance_mismatch extZero [(1 : ℝ), 2, 3, 4] [(1 : ℝ), 3, 2, 4]
      CP_DELTA TDI_PI h1 h2).2.2⟩

/-- Claim C9, counterexample to the claim as stated: at the concrete input
`x = [s-2, -(s-2), s-2, -(s-2), s-2, -(s-2)]` with `s = sqrt 3` and
`y = [1, -1, 1, -1, 1, -1]` (n = 6), the point estimate is `ccc = -1/2`, so
`(1 - ccc^2)^2 = 9/16` is not 1, yet the original-scale variance stored on the
ccc_ustat Estimator and the Fisher-z-scale variance stored on the z_ustat
Estimator (the variance fed to the limit computation) are both exactly 0 and
do not differ, refuting the claim's final universal statement. -/
theorem claim_C9_counterexample :
    Option.map Estimator.variance
        ((Agreement.ccc_ustat extZero (mkAgreement
          [Real.sqrt 3 - 2, -(Real.sqrt 3 - 2), Real.sqrt 3 - 2,
            -(Real.sqrt 3 - 2), Real.sqrt 3 - 2, -(Real.sqrt 3 - 2)]
          [(1 : ℝ), -1, 1, -1, 1, -1] CP_DELTA TDI_PI))._ccc_ustat) =
      Option.map Estimator.variance
        ((Agreement.ccc_ustat extZero (mkAgreement
          [Real.sqrt 3 - 2, -(Real.sqrt 3 - 2), Real.sqrt 3 - 2,
            -(Real.sqrt 3 - 2), Real.sqrt 3 - 2, -(Real.sqrt 3 - 2)]
          [(1 : ℝ), -1, 1, -1, 1, -1] CP_DELTA TDI_PI))._z_ustat) ∧
    Option.map Estimator.estimator
        ((Agreement.ccc_ustat extZero (mkAgreement
          [Real.sqrt 3 - 2, -(Real.sqrt 3 - 2), Real.sqrt 3 - 2,
            -(Real.sqrt 3 - 2), Real.sqrt 3 - 2, -(Real.sqrt 3 - 2)]
          [(1 : ℝ), -1, 1, -1, 1, -1] CP_DELTA TDI_PI))._ccc_ustat) =
      some (-(1 / 2)) ∧
    ((1 : ℝ) - (-(1 / 2) : ℝ) ^ 2) ^ 2 ≠ 1 := by
  set t : ℝ := Real.sqrt 3 - 2 with ht
  have hs3 : Real.sqrt 3 ^ 2 = 3 := Real.sq_sqrt (by norm_num)
  have hs3lt : Real.sqrt 3 < 2 := by nlinarith [Real.sqrt_nonneg 3]
  have htneg : t < 0 := by rw [ht]; linarith
  have ht0 : t ≠ 0 := ne_of_lt htneg
  have hq : t ^ 2 + 4 * t + 1 = 0 := by rw [ht]; linear_combination hs3
  have hlen : ([t, -t, t, -t, t, -t] : List ℝ).length = 6 := by norm_num
  have hh : Ustat.h 6 [t, -t, t, -t, t, -t] [(1 : ℝ), -1, 1, -1, 1, -1] =
      24 * t := by
    simp only [Ustat.h, Ustat.u1, Ustat.u3, Ustat.sx, Ustat.sxy, Ustat.xy,
      List.zipWith_cons_cons, List.zipWith_nil, List.sum_cons, List.sum_nil]
    push_cast
    ring
  have hg : Ustat.g 6 [t, -t, t, -t, t, -t] [(1 : ℝ), -1, 1, -1, 1, -1] =
      12 * t ^ 2 + 12 := by
    simp only [Ustat.g, Ustat.u1, Ustat.u2, Ustat.u3, Ustat.sx, Ustat.ssx,
      Ustat.sxy, Ustat.xy, List.zipWith_cons_cons, List.zipWith_nil,
      List.map_cons, List.map_nil, List.sum_cons, List.sum_nil]
    push_cast
    ring
  have hvh : Ustat.v_h 6 [t, -t, t, -t, t, -t] [(1 : ℝ), -1, 1, -1, 1, -1] =
      128 * t ^ 2 / 3 := by
    simp only [Ustat.v_h, Ustat.v_u1, Ustat.v_u3, Ustat.cov_u1_u3,
      Ustat.dotSum, Ustat.psi1, Ustat.psi3, Ustat.sx, Ustat.ssx, Ustat.sxy,
      Ustat.xy, List.zip_cons_cons, List.zip_nil_right,
      List.zipWith_cons_cons, List.zipWith_nil, List.map_cons, List.map_nil,
      List.sum_cons, List.sum_nil]
    push_cast
    ring
  have hvg : Ustat.v_g 6 [t, -t, t, -t, t, -t] [(1 : ℝ), -1, 1, -1, 1, -1] =
      512 * t ^ 2 / 3 := by
    simp only [Ustat.v_g, Ustat.v_u1, Ustat.v_u2, Ustat.v_u3, Ustat.cov_u1_u2,
      Ustat.cov_u1_u3, Ustat.cov_u2_u3, Ustat.dotSum, Ustat.psi1, Ustat.psi2,
      Ustat.psi3, Ustat.sx, Ustat.ssx, Ustat.sxy, Ustat.xy,
      List.zip_cons_cons, List.zip_nil_right, List.zipWith_cons_cons,
      List.zipWith_nil, List.map_cons, List.map_nil, List.sum_cons,
      List.sum_nil]
    push_cast
    ring
  have hcg : Ustat.cov_h_g 6 [t, -t, t, -t, t, -t] [(1 : ℝ), -1, 1, -1, 1, -1] =
      -256 * t ^ 2 / 3 := by
    simp only [Ustat.cov_h_g, Ustat.v_u1, Ustat.v_u3, Ustat.cov_u1_u2,
      Ustat.cov_u1_u3, Ustat.cov_u2_u3, Ustat.dotSum, Ustat.psi1, Ustat.psi2,
      Ustat.psi3, Ustat.sx, Ustat.ssx, Ustat.sxy, Ustat.xy,
      List.zip_cons_cons, List.zip_nil_right, List.zipWith_cons_cons,
      List.zipWith_nil, List.map_cons, List.map_nil, List.sum_cons,
      List.sum_nil]
    push_cast
    ring
  have hgne : (12 : ℝ) * t ^ 2 + 12 ≠ 0 := by positivity
  have hccc : Ustat.ccc_hat 6 [t, -t, t, -t, t, -t]
      [(1 : ℝ), -1, 1, -1, 1, -1] = -(1 / 2) := by
    rw [Ustat.ccc_hat, hh, hg, div_eq_iff hgne]
    linear_combination 6 * hq
  have h48 : (12 : ℝ) * t ^ 2 + 12 = -(48 * t) := by linear_combination 12 * hq
  have hQ : Ustat.var_ccc_hat 6 [t, -t, t, -t, t, -t]
      [(1 : ℝ), -1, 1, -1, 1, -1] = 0 := by
    rw [Ustat.var_ccc_hat, hvh, hvg, hcg, hh, hg, hccc, h48]
    field_simp
    ring
  have hz : Ustat.var_z_hat 6 [t, -t, t, -t, t, -t]
      [(1 : ℝ), -1, 1, -1, 1, -1] = 0 := by
    rw [Ustat.var_z_hat, hQ, zero_div]
  refine ⟨?_, ?_, by norm_num⟩
  · simp only [Agreement.ccc_ustat, mkAgreement]
    rw [hlen, hQ, hz]
    rfl
  · simp only [Agreement.ccc_ustat, mkAgreement]
    rw [hlen, hccc]
    rfl

end

end StatAgree
